import Mathlib

/-
Shallow embedding of the davitpy tdiff calibration engine:
  src/davitpy/pydarn/radar/tdiff/rad_freqbands_new.py  (radFreqBands, catalog data)
  src/davitpy/pydarn/radar/tdiff/rad_tdiff.py          (radTdiff)

Machine conventions used throughout:
  * Python datetimes are encoded as naturals by an order-preserving packing
    (`dtNat`); the sources only ever compare datetimes, never do arithmetic.
  * Python floats in the fragment at hand are only stored and returned, never
    computed with; they are modelled as `Option ℚ` with `none` playing np.nan.
  * Code that can raise is modelled in `Except Unit`, `.error ()` marking the
    places where the Python raises out of the enclosing call.
  * The module-level Python dicts are association lists in their literal order.
-/

/-- Python float value: `none` is np.nan, `some q` an ordinary float. -/
abbrev PyFloat := Option ℚ

/-- Order-preserving encoding of a `datetime.datetime` with second resolution.
Python compares datetimes lexicographically by (year, month, day, hour, minute,
second); the packing below is strictly monotone for in-range fields
(month ≤ 12 < 13, day ≤ 31 < 32, hour < 24, minute < 60, second < 60). -/
def dtNat (y mo d h mi s : Nat) : Nat :=
  ((((y * 13 + mo) * 32 + d) * 24 + h) * 60 + mi) * 60 + s

/-- The `rad` argument accepted by both constructors: None, an id number,
or a radar-code string. -/
inductive PyRad where
  | pyNone : PyRad
  | pyInt (n : Nat) : PyRad
  | pyStr (s : String) : PyRad
  deriving DecidableEq

/-- ASCII lowercasing of one character, as Python `str.lower` does on the
ASCII radar codes and inputs in play here. -/
def pyLowerChar (c : Char) : Char :=
  if 'A' ≤ c ∧ c ≤ 'Z' then Char.ofNat (c.toNat + 32) else c

/-- Python `str.lower` (ASCII). -/
def pyLower (s : String) : String := String.mk (s.data.map pyLowerChar)

/-- Python list indexing `l[i]`, with negative-index wraparound;
`none` models an IndexError being raised. -/
def pyGet {α : Type} (l : List α) (i : Int) : Option α :=
  if 0 ≤ i then l.get? i.toNat
  else if -(l.length : Int) ≤ i then l.get? (l.length - (-i).toNat)
  else none

/-- `id_to_code` from rad_freqbands_new.py lines 220-224, in literal order. -/
def id_to_code : List (Nat × String) := [
  (1, "gbr"), (2, "sch"), (3, "kap"), (4, "hal"), (5, "sas"), (6, "pgr"),
  (7, "kod"), (8, "sto"), (9, "pyk"), (10, "han"), (11, "san"),
  (12, "sys"), (13, "sye"), (14, "tig"), (15, "ker"), (16, "ksr"),
  (18, "unw"), (20, "mcm"), (21, "fir"), (32, "wal"), (33, "bks"),
  (40, "hok"), (64, "inv"), (65, "rkn"), (90, "lyr"), (128, "spe"),
  (209, "ade"), (208, "adw")
]

/-- `id_to_code.has_key(n)` followed by `id_to_code[n]`. -/
def lookupId (n : Nat) : Option String :=
  (id_to_code.find? (fun p => p.1 == n)).map (fun p => p.2)

/-- The loop `for stid in id_to_code.keys(): if id_to_code[stid] == rad.lower()`
searching for the station id of a lowercased code. -/
def code_to_id (c : String) : Option Nat :=
  (id_to_code.find? (fun p => p.2 == c)).map (fun p => p.1)

/-- Identity resolution performed by `radFreqBands.__init__`
(rad_freqbands_new.py lines 262-276).  Result is the `(rad_code, stid)` pair.
An unknown integer reaches `rad.lower()` inside the id loop and raises
AttributeError; `None` is guarded by `if rad is not None` and resolves to
`(None, None)`; a string is stored as given (never lowercased) with the id
found by comparing catalog codes against `rad.lower()`. -/
def resolveFB : PyRad → Except Unit (Option String × Option Nat)
  | .pyInt n =>
    match lookupId n with
    | some c => .ok (some c, some n)
    | none => .error ()
  | .pyStr s => .ok (some s, code_to_id (pyLower s))
  | .pyNone => .ok (none, none)

/-- Identity resolution performed by `radTdiff.__init__` (rad_tdiff.py lines
94-105).  Identical to `resolveFB` except that the id-search loop is not
guarded by `if rad is not None`, so a `None` input also reaches
`rad.lower()` and raises AttributeError. -/
def resolveTD : PyRad → Except Unit (Option String × Option Nat)
  | .pyInt n =>
    match lookupId n with
    | some c => .ok (some c, some n)
    | none => .error ()
  | .pyStr s => .ok (some s, code_to_id (pyLower s))
  | .pyNone => .error ()


/-- `rad_band_time` from rad_freqbands_new.py lines 38-55: per radar the
association list of (version key, effective start, effective end). -/
def rad_band_time : List (String × List (Nat × Nat × Nat)) := [
  ("gbr", [(0, dtNat 1995 1 1 0 0 0, dtNat 3000 1 1 0 0 0)]),
  ("hal", [(0, dtNat 1995 1 1 0 0 0, dtNat 3000 1 1 0 0 0)]),
  ("han", [(0, dtNat 1995 1 1 0 0 0, dtNat 3000 1 1 0 0 0)]),
  ("kap", [(0, dtNat 1995 1 1 0 0 0, dtNat 3000 1 1 0 0 0)]),
  ("kod", [(0, dtNat 1995 1 1 0 0 0, dtNat 2009 10 1 0 0 0),
    (1, dtNat 2010 8 30 0 0 0, dtNat 2010 9 6 23 59 59),
    (2, dtNat 2010 9 7 0 0 0, dtNat 3000 1 1 0 0 0)]),
  ("ksr", [(0, dtNat 1995 1 1 0 0 0, dtNat 2004 10 1 0 0 0),
    (1, dtNat 2007 8 30 0 0 0, dtNat 3000 1 1 0 0 0)]),
  ("pgr", [(0, dtNat 1995 1 1 0 0 0, dtNat 2001 10 2 0 0 0),
    (1, dtNat 2004 8 30 0 0 0, dtNat 2004 10 1 0 0 0),
    (2, dtNat 2007 8 30 0 0 0, dtNat 2007 10 1 0 0 0),
    (3, dtNat 2009 8 30 0 0 0, dtNat 3000 1 1 0 0 0)]),
  ("pyk", [(0, dtNat 1995 1 1 0 0 0, dtNat 3000 1 1 0 0 0)]),
  ("sas", [(0, dtNat 1995 1 1 0 0 0, dtNat 3000 1 1 0 0 0)]),
  ("sto", [(0, dtNat 1995 1 1 0 0 0, dtNat 3000 1 1 0 0 0)])
]

/-- `rad_band_num` from rad_freqbands_new.py lines 56-95 (commented-out radars
omitted as in the source): per radar, per version key, the band-number list. -/
def rad_band_num : List (String × List (Nat × List Nat)) := [
  ("gbr",
   [(0,
     [0, 1, 2, 3, 4, 5, 6, 7, 8, 9, 10, 11, 12, 13, 14, 15, 16, 17, 18, 19,
      20, 21, 22, 23, 24, 25])]),
  ("hal",
   [(0,
     [0, 1, 2, 3, 4, 5, 6, 7, 8, 9, 10, 11, 12, 13, 14, 15, 16, 17, 18, 19,
      20, 21, 22, 23, 24, 25, 26, 27, 28, 29, 30, 31, 32, 33, 34])]),
  ("han",
   [(0,
     [0, 1, 2, 3, 4, 5, 6, 7, 8, 9, 10, 11, 12, 13, 14])]),
  ("kap",
   [(0,
     [37, 38, 39, 40, 11, 12, 13, 14, 15, 16, 17, 18, 19, 20, 21, 22, 23,
      24, 25, 26, 27, 28, 29])]),
  ("kod",
   [(0,
     [0, 1, 2, 3, 4, 5, 6, 7, 8, 9, 10, 11, 12, 13, 14, 15, 16, 17, 18, 19,
      20, 21, 22, 23, 24, 25, 26]),
    (1,
     [27, 28, 29, 30, 31, 32, 33, 34, 35, 36, 37, 38, 39, 12, 13, 14, 15,
      16, 17, 18, 19, 20, 21, 22, 23, 24, 25, 26]),
    (2,
     [0, 1, 2, 3, 4, 5, 6, 7, 8, 9, 10, 11, 12, 13, 14, 15, 16, 17, 18, 19,
      20, 21, 22, 23, 24, 25, 26])]),
  ("ksr",
   [(0,
     [0, 1, 2, 3, 4, 5, 6, 7, 8, 9, 10, 11, 12, 13, 14, 15, 16, 17, 41, 42,
      43, 22, 44, 45, 26, 27, 46, 47, 48, 32, 33, 34, 35, 36]),
    (1,
     [0, 1, 2, 3, 4, 5, 6, 7, 8, 9, 10, 11, 12, 13, 14, 15, 16, 17, 18, 19,
      20, 21, 22, 23, 24, 25, 26, 27, 28, 29, 30, 31, 32, 33, 34, 35, 36])]),
  ("pgr",
   [(0,
     [0, 1, 2, 3, 4, 5, 6, 7, 8, 9, 10, 11, 12, 13, 14, 15, 16, 17, 18, 19,
      20, 21, 22, 23, 24, 25, 26, 27, 28, 29, 30, 31, 32, 33, 34, 35, 36,
      37, 38, 39, 40]),
    (1,
     [0, 1, 2, 3, 4, 5, 41, 42, 43, 9, 10, 11, 12, 44, 45, 46, 47, 48, 49,
      50, 21, 22, 51, 52, 53, 54, 28, 29, 30, 31, 32, 33, 34, 35, 36, 37,
      38, 39, 40]),
    (2,
     [0, 1, 2, 3, 4, 5, 55, 56, 57, 58, 59, 60, 61, 44, 45, 46, 47, 62, 63,
      64, 65, 66, 22, 51, 52, 53, 54, 28, 29, 30, 31, 32, 33, 34, 35, 36,
      37, 38, 39, 40]),
    (3,
     [0, 1, 2, 3, 4, 5, 41, 42, 43, 9, 10, 67, 68, 61, 44, 45, 46, 47, 62,
      63, 21, 22, 51, 52, 53, 54, 28, 29, 30, 31, 32, 33, 34, 35, 36, 37,
      38, 39, 40])]),
  ("pyk",
   [(0,
     [0, 1, 2, 3, 4, 5, 6, 7, 8, 9, 10, 11, 12, 13, 14, 15, 16, 17, 18])]),
  ("sas",
   [(0,
     [0, 1, 2, 3, 4, 5, 6, 7, 8, 9, 10, 11, 12, 13, 14, 15, 16, 17, 18, 19,
      20, 21, 22, 23, 24, 25, 26, 27, 28, 29, 30, 31])]),
  ("sto",
   [(0,
     [0, 1, 2, 3, 4, 5, 6, 7, 8, 9, 10, 11, 12, 13, 14, 15, 16, 17, 18, 19,
      20, 21, 22])])
]

/-- `rad_min` from rad_freqbands_new.py lines 98-157: per radar the array of
band lower bounds in kHz, indexed by band number. -/
def rad_min : List (String × List Nat) := [
  ("gbr",
   [8900, 9201, 9500, 9966, 10199, 10698, 10900, 11199, 11696, 11900,
    12201, 12501, 12801, 13291, 13592, 13989, 14199, 14500, 15040, 15400,
    15840, 16141, 16399, 16900, 17400, 17871]),
  ("hal",
   [8000, 8350, 8700, 9000, 9350, 9700, 10000, 10350, 10700, 11000, 11350,
    11651, 12000, 12300, 12650, 13000, 13350, 13700, 14000, 14350, 14651,
    15000, 15350, 15651, 16000, 16350, 16700, 17000, 17350, 17700, 18000,
    18350, 18700, 19000, 19350, 19700]),
  ("han",
   [8305, 8965, 9900, 11075, 11550, 12370, 13200, 15010, 16210, 16555,
    17970, 18850, 19415, 19705, 19800]),
  ("kap",
   [8900, 9201, 9600, 9966, 10200, 10501, 10701, 11000, 11430, 11800,
    12100, 12400, 12700, 13000, 13301, 13551, 13971, 14380, 14701, 15100,
    15400, 15840, 16141, 16399, 16900, 17400, 17871, 18000, 18350, 18700]),
  ("kod",
   [8200, 8700, 9200, 9700, 10200, 10701, 11300, 11800, 12300, 12800,
    13300, 13800, 14500, 15000, 15500, 16100, 16600, 17100, 17600, 18100,
    18600, 19100, 19600, 20100, 20600, 21100, 21600, 8000, 8500, 9000,
    9500, 10000, 10500, 11000, 11500, 12000, 12500, 13000, 13500, 14000]),
  ("ksr",
   [8000, 8400, 8700, 9000, 9300, 9600, 9900, 10200, 10500, 10800, 11100,
    11400, 11700, 12000, 12300, 12600, 12900, 13400, 13700, 14100, 14500,
    14800, 15000, 15300, 15700, 16000, 16400, 16900, 17400, 17900, 18400,
    18900, 19400, 19900, 20400, 20900, 21400, 8000, 9000, 10000, 11000,
    13700, 14001, 14300, 15300, 15600, 17400, 18100, 18800]),
  ("pgr",
   [8016, 8317, 8618, 9000, 9301, 9487, 9901, 10200, 10501, 10900, 11000,
    11300, 11700, 12001, 12995, 13100, 13500, 13801, 14101, 14500, 14800,
    15101, 15500, 15900, 16200, 16501, 16900, 17200, 17500, 17800, 18000,
    18301, 18701, 19000, 19300, 19600, 19900, 20200, 20500, 20800, 21100,
    9901, 10300, 10601, 12001, 12995, 13300, 13600, 14000, 14301, 14600,
    15900, 16300, 16701, 17000, 9901, 10000, 10400, 10800, 11000, 11400,
    11800, 14000, 14400, 14700, 15000, 15400, 11100, 11500]),
  ("pyk",
   [8000, 8430, 8985, 10155, 10656, 11290, 11475, 12105, 12305, 12590,
    13360, 13875, 14400, 15805, 16500, 16820, 18175, 18835, 19910]),
  ("sas",
   [8000, 8907, 9208, 9600, 10100, 10499, 11000, 11300, 11600, 12300,
    12995, 13416, 13800, 14100, 14400, 14701, 15002, 15390, 15801, 16100,
    16400, 16701, 17000, 17300, 17600, 17900, 18200, 18500, 18800, 19100,
    19400, 19700]),
  ("sto",
   [8202, 8900, 9200, 9501, 10000, 11100, 11401, 11800, 12301, 12801,
    13100, 13501, 13901, 14400, 14901, 16100, 16689, 16799, 17910, 18778,
    19674])
]

/-- `rad_max` from rad_freqbands_new.py lines 159-217: per radar the array of
band upper bounds in kHz, indexed by band number. -/
def rad_max : List (String × List Nat) := [
  ("gbr",
   [9200, 9499, 9965, 10198, 10697, 10899, 11198, 11695, 11899, 12200,
    12500, 12800, 13290, 13591, 13988, 14198, 14499, 14960, 15399, 15700,
    16140, 16398, 16899, 17399, 17870, 18000]),
  ("hal",
   [8349, 8699, 8999, 9249, 9699, 9999, 10349, 10699, 10999, 11349, 11650,
    11999, 12299, 12949, 12999, 13349, 13699, 13999, 14349, 14650, 14999,
    15349, 15650, 15999, 16349, 16699, 16999, 17349, 17699, 17999, 18349,
    18699, 18999, 19349, 20000]),
  ("han",
   [8335, 9040, 9985, 11275, 11600, 12415, 13260, 15080, 16360, 16615,
    18050, 18865, 19680, 19755, 19990]),
  ("kap",
   [9200, 9599, 9965, 10199, 10500, 10700, 10999, 11429, 11799, 12099,
    12399, 12699, 12999, 13300, 13550, 13970, 14379, 14700, 15099, 15399,
    15700, 16140, 16398, 16899, 17399, 17870, 17999, 18349, 18699, 19000]),
  ("kod",
   [8699, 9199, 9699, 10199, 10700, 11299, 11799, 12299, 12799, 13299,
    13799, 14499, 14999, 15499, 16099, 16599, 17099, 17599, 18099, 18599,
    19099, 19599, 20099, 20599, 21099, 21599, 22100, 8499, 8999, 9499,
    9999, 10499, 10999, 11499, 11999, 12499, 12999, 13499, 13999, 14499]),
  ("ksr",
   [8399, 8699, 8999, 9299, 9599, 9899, 10199, 10499, 10799, 11099, 11399,
    11699, 11999, 12299, 12599, 12899, 13399, 13699, 14099, 14499, 14799,
    14999, 15299, 15699, 15999, 16399, 16899, 17399, 17899, 18399, 18899,
    19399, 19899, 20399, 20899, 21399, 21900, 8999, 9999, 10999, 11399,
    14000, 14299, 14999, 15599, 16399, 18099, 18799, 19399]),
  ("pgr",
   [8316, 8617, 8999, 9300, 9486, 9900, 10199, 10500, 10899, 10999, 11299,
    11699, 12000, 12994, 13099, 13499, 13800, 14100, 14499, 14799, 15100,
    15499, 15899, 16199, 16500, 16899, 17199, 17499, 17799, 17999, 18300,
    18700, 18999, 19299, 19599, 19899, 20199, 20499, 20799, 21099, 21300,
    10299, 10600, 10899, 12996, 13299, 13599, 13999, 14300, 14599, 15100,
    16299, 16700, 16999, 17499, 9999, 10399, 10799, 10999, 11399, 11799,
    12000, 14399, 14699, 14999, 15399, 11499, 11799]),
  ("pyk",
   [8195, 8850, 9395, 10655, 11175, 11450, 11595, 12235, 12510, 13280,
    13565, 13995, 15015, 16365, 16685, 17475, 18770, 18885, 20000]),
  ("sas",
   [8300, 9207, 9599, 9900, 10498, 10999, 11299, 11599, 12000, 12600,
    13355, 13799, 14099, 14399, 14700, 15001, 15389, 15800, 16099, 16399,
    16700, 16999, 17299, 17599, 17899, 18199, 18499, 18799, 19099, 19399,
    19699, 19985]),
  ("sto",
   [8500, 9199, 9500, 9900, 10300, 11400, 11799, 12300, 12800, 13099,
    13500, 13900, 14399, 14900, 15400, 16455, 16748, 16815, 17990, 18905,
    19686])
]

/-- Python dict lookup `tbl[c]` on a string-keyed dict; `none` models KeyError. -/
def lookupStr {α : Type} (tbl : List (String × α)) (c : String) : Option α :=
  (tbl.find? (fun p => p.1 == c)).map (fun p => p.2)

/-- Python dict lookup `tbl[k]` on an int-keyed dict by a possibly negative
key; `none` models KeyError. -/
def lookupKey {α : Type} (tbl : List (Nat × α)) (k : Int) : Option α :=
  (tbl.find? (fun p => (p.1 : Int) == k)).map (fun p => p.2)

/-- The attribute set a `radFreqBands` instance carries after `__init__`. -/
structure FreqBands where
  rad_code : Option String
  stid : Option Nat
  stime : Nat
  etime : Nat
  tbands : List Nat
  tmins : List Nat
  tmaxs : List Nat
  deriving DecidableEq

/-- `radFreqBands.get_time_key` (rad_freqbands_new.py lines 356-375): scan the
radar's version dict in order; return the first key whose
`[start, end)` window contains `rtime` (`limits[0] <= rtime and
limits[1] > rtime`), else -1. -/
def get_time_key (versions : List (Nat × Nat × Nat)) (rtime : Nat) : Int :=
  match versions.find? (fun v => v.2.1 ≤ rtime && rtime < v.2.2) with
  | some v => (v.1 : Int)
  | none => -1

/-- The `try` block of `radFreqBands.__init__` (lines 279-285): version lookup
by `get_time_key`, then the band-number list, then numpy fancy indexing of
`rad_min`/`rad_max` by that list.  `none` models any exception (KeyError from
a missing code or a -1 key, IndexError from an out-of-range band number),
which `__init__` turns into the empty-snapshot fallback. -/
def tryBandsWithKey (code : String) (versions : List (Nat × Nat × Nat))
    (tkey : Int) : Option (Nat × Nat × List Nat × List Nat × List Nat) := do
  let limits ← lookupKey versions tkey
  let nums ← lookupStr rad_band_num code >>= fun t => lookupKey t tkey
  let mins ← lookupStr rad_min code
  let tmins ← nums.mapM (fun b => mins.get? b)
  let maxs ← lookupStr rad_max code
  let tmaxs ← nums.mapM (fun b => maxs.get? b)
  return (limits.1, limits.2, nums, tmins, tmaxs)

/-- The same block, entered at the `tkey = self.get_time_key(rtime)` line. -/
def tryBands (code : String) (rtime : Nat) :
    Option (Nat × Nat × List Nat × List Nat × List Nat) := do
  let versions ← lookupStr rad_band_time code
  tryBandsWithKey code versions (get_time_key versions rtime)

/-- `radFreqBands.__init__` (rad_freqbands_new.py lines 262-291): identity
resolution (which can raise, see `resolveFB`), then the band assignment with
its blanket `except` falling back to the degenerate empty snapshot
`stime = etime = rtime`, no bands. -/
def mkFreqBands (rad : PyRad) (rtime : Nat) : Except Unit FreqBands := do
  let (rc, stid) ← resolveFB rad
  match rc.bind (fun c => tryBands c rtime) with
  | some (s, e, nums, tmins, tmaxs) =>
    return { rad_code := rc, stid := stid, stime := s, etime := e,
             tbands := nums, tmins := tmins, tmaxs := tmaxs }
  | none =>
    return { rad_code := rc, stid := stid, stime := rtime, etime := rtime,
             tbands := [], tmins := [], tmaxs := [] }

/-- The scan loop of `radFreqBands.get_tband_max_min` (lines 396-398):
`for i,t in enumerate(self.tmins): if tfreq - t >= 0 and
self.tmaxs[i] - tfreq >= 0: return (t, self.tmaxs[i])`.  The second conjunct
indexes `tmaxs[i]` only when the first holds (Python `and` short-circuits);
`.error ()` models the IndexError when `tmaxs` is shorter than `tmins`. -/
def scanBandMaxMin (tmaxs : List Nat) (tfreq : Int) :
    List Nat → Nat → Except Unit (Int × Int)
  | [], _ => .ok (-1, -1)
  | t :: rest, i =>
    if 0 ≤ tfreq - (t : Int) then
      match tmaxs.get? i with
      | none => .error ()
      | some m =>
        if 0 ≤ (m : Int) - tfreq then .ok ((t : Int), (m : Int))
        else scanBandMaxMin tmaxs tfreq rest (i + 1)
    else scanBandMaxMin tmaxs tfreq rest (i + 1)

/-- `radFreqBands.get_tband_max_min` (rad_freqbands_new.py lines 378-401):
first band (in snapshot order) whose `[min, max]` contains `tfreq`, else the
sentinel `(-1, -1)` after a logged warning. -/
def get_tband_max_min (fb : FreqBands) (tfreq : Int) : Except Unit (Int × Int) :=
  scanBandMaxMin fb.tmaxs tfreq fb.tmins 0

/-- `radFreqBands.get_mean_tband_freq` (rad_freqbands_new.py lines 403-428):
if `len(self.tmins) > tband` then `int((self.tmaxs[tband] + self.tmins[tband])
/ 2.0)` — note numpy accepts a negative `tband` here and indexes from the end,
raising IndexError (modelled `.error ()`) only below `-len`; otherwise the
sentinel -1 with a logged warning.  The `int(... / 2.0)` truncation on these
non-negative kHz sums is exactly floor division by 2. -/
def get_mean_tband_freq (fb : FreqBands) (tband : Int) : Except Unit Int :=
  if (fb.tmins.length : Int) > tband then
    match pyGet fb.tmaxs tband, pyGet fb.tmins tband with
    | some mx, some mn => .ok (((mx + mn) / 2 : Nat) : Int)
    | _, _ => .error ()
  else .ok (-1)

example : (mkFreqBands (.pyStr "han") (dtNat 2000 6 15 0 0 0)).map
    (fun fb => fb.tbands.length) = .ok 15 := rfl
example : (mkFreqBands (.pyStr "han") (dtNat 2000 6 15 0 0 0)).map
    (fun fb => get_tband_max_min fb 13200) = .ok (.ok (13200, 13260)) := rfl
example : (mkFreqBands (.pyStr "han") (dtNat 2000 6 15 0 0 0)).map
    (fun fb => get_tband_max_min fb 20000) = .ok (.ok (-1, -1)) := rfl
example : (mkFreqBands (.pyStr "han") (dtNat 2000 6 15 0 0 0)).map
    (fun fb => get_mean_tband_freq fb (-1)) = .ok (.ok 19895) := rfl
example : (mkFreqBands (.pyStr "kap") (dtNat 2000 6 15 0 0 0)).map
    (fun fb => fb.tbands.length) = .ok 0 := rfl
example : (mkFreqBands (.pyStr "pgr") (dtNat 2007 9 15 0 0 0)).map
    (fun fb => (fb.tmins.getD 21 0, fb.tmaxs.getD 21 0)) = .ok (15400, 11499) := rfl

/-- The six parallel attribute lists a `radTdiff` instance carries
(rad_tdiff.py lines 118-123). -/
structure TdiffLists where
  tbands : List Int
  stimes : List Nat
  etimes : List Nat
  est_tdiffs : List PyFloat
  tdiff_errs : List PyFloat
  validated : List Bool
  deriving DecidableEq

/-- The freshly initialised lists of `radTdiff.__init__`. -/
def emptyTdiff : TdiffLists := ⟨[], [], [], [], [], []⟩

/-- One hardware-file entry as consumed by `load_hardware_tdiff`: its
`tval` boundary timestamp and its scalar `tdiff`. -/
structure HdwSite where
  tval : Nat
  tdiff : PyFloat
  deriving DecidableEq

/-- `radTdiff.load_hardware_tdiff` (rad_tdiff.py lines 277-308) appends, for
each hardware entry, one record per frequency band with the running start
time, the entry's `tval` as end time, the scalar tdiff, NaN error and
`validated = True`, then advances the start time to `tval`.  The hardware
source and the band list are the external collaborators, passed in as data.
`hwAppendBand` is the per-band append of that loop. -/
def hwAppendBand (stime : Nat) (hard : HdwSite) (acc : TdiffLists)
    (tt : Nat) : TdiffLists :=
  { acc with
    stimes := acc.stimes ++ [stime],
    etimes := acc.etimes ++ [hard.tval],
    tbands := acc.tbands ++ [(tt : Int)],
    est_tdiffs := acc.est_tdiffs ++ [hard.tdiff],
    tdiff_errs := acc.tdiff_errs ++ [none],
    validated := acc.validated ++ [true] }

/-- The per-hardware-entry step of `load_hardware_tdiff`: append one record
per band, then move the running start time to this entry's `tval`. -/
def hwSiteStep (tbands : List Nat) (p : Nat × TdiffLists) (hard : HdwSite) :
    Nat × TdiffLists :=
  (hard.tval, tbands.foldl (hwAppendBand p.1 hard) p.2)

def load_hardware_tdiff (stTime : Nat) (sites : List HdwSite)
    (tbands : List Nat) : TdiffLists :=
  (sites.foldl (hwSiteStep tbands) (stTime, emptyTdiff)).2

/-- The column numbers handed to `radTdiff.load_tdiff`. -/
structure LoadCols where
  tdiff_col : Int
  terr_col : Int
  tband_col : Int
  val_col : Int
  stime_cols : List Int
  etime_cols : List Int
  deriving DecidableEq

/-- Default string used for in-range `fdata[icol]` reads. -/
def emptyField : String := ""

/-- The start/end time string of rad_tdiff.py lines 242-245 and 249-252:
the designated columns space-joined in order. -/
def timeFieldStr (fdata : List String) (c0 : Int) (crest : List Int) : String :=
  crest.foldl (fun acc c => acc ++ " " ++ fdata.getD c.toNat emptyField)
    (fdata.getD c0.toNat emptyField)

/-- The body of the per-line loop of `radTdiff.load_tdiff` (rad_tdiff.py lines
231-266), processing one file line against the state `(lists, bad_lines)`.
`split` models `fline.split(split_col)`, `parseTime` models
`dt.datetime.strptime(_, time_fmt)`, `parseInt`/`parseFloat` model the `int`
and `float` casts — for each, `none` is the library call raising.  Faithful
quirks kept: a line containing `#` anywhere is skipped in full; the length
guard uses `max_col`, which does not include `val_col`; the start time is
appended *before* the end time is parsed, inside the same `try`, so an
end-time failure leaves an orphan start time behind; the `int`/`float`
casts and the `fdata[val_col]` read sit outside the `try`, so their failures
raise out of the load (`.error ()`), each after the earlier appends of the
same line have already happened. -/
def processTdiffLine (split : String → List String)
    (parseTime : String → Option Nat) (parseInt : String → Option Int)
    (parseFloat : String → Option PyFloat) (cols : LoadCols) (max_col : Int)
    (st : TdiffLists × Nat) (fline : String) : Except Unit (TdiffLists × Nat) :=
  let t := st.1
  let bad := st.2
  if fline.data.contains '#' then .ok (t, bad)
  else
    let fdata := split fline
    if (fdata.length : Int) ≤ max_col then .ok (t, bad + 1)
    else
      match cols.stime_cols with
      | [] => .ok (t, bad + 1)
      | c0 :: crest =>
        match parseTime (timeFieldStr fdata c0 crest) with
        | none => .ok (t, bad + 1)
        | some stime_v =>
          let t1 := { t with stimes := t.stimes ++ [stime_v] }
          match cols.etime_cols with
          | [] => .ok (t1, bad + 1)
          | d0 :: drest =>
            match parseTime (timeFieldStr fdata d0 drest) with
            | none => .ok (t1, bad + 1)
            | some etime_v =>
              let t2 := { t1 with etimes := t1.etimes ++ [etime_v] }
              match parseInt (fdata.getD cols.tband_col.toNat emptyField) with
              | none => .error ()
              | some bv =>
                let t3 := { t2 with tbands := t2.tbands ++ [bv] }
                match parseFloat (fdata.getD cols.tdiff_col.toNat emptyField) with
                | none => .error ()
                | some ev =>
                  let t4 := { t3 with est_tdiffs := t3.est_tdiffs ++ [ev] }
                  match parseFloat (fdata.getD cols.terr_col.toNat emptyField) with
                  | none => .error ()
                  | some rv =>
                    let t5 := { t4 with tdiff_errs := t4.tdiff_errs ++ [rv] }
                    match pyGet fdata cols.val_col with
                    | none => .error ()
                    | some vs =>
                      .ok ({ t5 with validated := t5.validated ++ [vs != emptyField] },
                           bad)

/-- `all_cols` of rad_tdiff.py lines 213-215: the tdiff, error and band
columns plus the start- and end-time columns — `val_col` is absent, exactly
as in the source. -/
def loadAllCols (cols : LoadCols) : List Int :=
  cols.tdiff_col :: cols.terr_col :: cols.tband_col ::
    (cols.stime_cols ++ cols.etime_cols)

/-- `min(all_cols)` of rad_tdiff.py line 216. -/
def loadMinCol (cols : LoadCols) : Int :=
  (loadAllCols cols).foldl min cols.tdiff_col

/-- `max(all_cols)` of rad_tdiff.py line 220. -/
def loadMaxCol (cols : LoadCols) : Int :=
  (loadAllCols cols).foldl max cols.tdiff_col

/-- `radTdiff.load_tdiff` (rad_tdiff.py lines 181-274): the negative-column
guard over `all_cols` (`val_col` absent from it, exactly as in the source),
then the line scan.  The result carries the final `(lists, bad_lines)`;
`bad_lines` is the count logged once after the scan. -/
def load_tdiff (split : String → List String) (parseTime : String → Option Nat)
    (parseInt : String → Option Int) (parseFloat : String → Option PyFloat)
    (cols : LoadCols) (content : List String) : Except Unit (TdiffLists × Nat) :=
  if loadMinCol cols < 0 then .ok (emptyTdiff, 0)
  else
    content.foldlM
      (processTdiffLine split parseTime parseInt parseFloat cols (loadMaxCol cols))
      (emptyTdiff, 0)

/-- `radTdiff.get_tdiff` (rad_tdiff.py lines 311-351), kept index set by index
set: `itbands` are the positions with the queried band; `itime1` are positions
*within `itbands`* whose start time is at most `ttime`; `idiff1 = itbands[itime1]`
are the corresponding record positions; `itime2` are positions *within
`idiff1`* whose end time is at least `ttime`.  When `itime2` is the singleton
`[k]`, line 345 of the source computes the final record index as
`itbands[k]` — against `itbands`, not `idiff1` — and that is reproduced
faithfully here. -/
def get_tdiff (t : TdiffLists) (tband : Int) (ttime : Nat) (tval : Bool) :
    PyFloat × PyFloat :=
  let itbands := (List.range t.tbands.length).filter
    (fun i => t.tbands.getD i 0 == tband)
  if 0 < itbands.length then
    let itime1 := (List.range itbands.length).filter
      (fun j => decide (t.stimes.getD (itbands.getD j 0) 0 ≤ ttime))
    if 0 < itime1.length then
      let idiff1 := itime1.map (fun j => itbands.getD j 0)
      let itime2 := (List.range idiff1.length).filter
        (fun k => decide (ttime ≤ t.etimes.getD (idiff1.getD k 0) 0))
      match itime2 with
      | [k] =>
        let idiff2 := itbands.getD k 0
        if !tval || t.validated.getD idiff2 false then
          (t.est_tdiffs.getD idiff2 none, t.tdiff_errs.getD idiff2 none)
        else (none, none)
      | _ => (none, none)
    else (none, none)
  else (none, none)

/-- The record filter in the words of the spec (§4.3): positions of stored
records whose band equals the query band, whose start time is `≤ ttime` and
whose end time is `≥ ttime`.  Used to state claims C1 and C2 and compare
them against `get_tdiff`. -/
def specMatchingRecords (t : TdiffLists) (tband : Int) (ttime : Nat) : List Nat :=
  (List.range t.tbands.length).filter (fun i =>
    t.tbands.getD i 0 == tband && decide (t.stimes.getD i 0 ≤ ttime) &&
    decide (ttime ≤ t.etimes.getD i 0))

/-- Concrete Python `int` on a non-negative digit string; `none` for anything
`int()` would raise on (used only to instantiate the parser collaborators in
concrete scenarios). -/
def pyParseNat (s : String) : Option Nat :=
  match s.data with
  | [] => none
  | cs =>
    cs.foldl (fun acc c =>
      acc.bind (fun n =>
        if '0' ≤ c ∧ c ≤ '9' then some (n * 10 + (c.toNat - 48)) else none))
      (some 0)

/-- `int` collaborator built on `pyParseNat`. -/
def pyParseInt (s : String) : Option Int := (pyParseNat s).map Int.ofNat

/-- `float` collaborator built on `pyParseNat`. -/
def pyParseFloat (s : String) : Option PyFloat :=
  (pyParseNat s).map (fun n => some ((n : ℚ)))

/-- Python `str.split(sep)` with a one-character separator: splits at every
occurrence, keeping empty fields, like `"a  b".split(" ") == ['a','','b']`. -/
def pySplitChar (sep : Char) (s : String) : List String :=
  (s.data.foldr
    (fun c acc =>
      if c = sep then [] :: acc
      else
        match acc with
        | g :: rest => (c :: g) :: rest
        | [] => [[c]])
    [[]]).map String.mk

/-- Python `str.split(" ")` collaborator. -/
def splitSpace (s : String) : List String := pySplitChar ' ' s

example : splitSpace "5 1 1 1 10 xx" = ["5", "1", "1", "1", "10", "xx"] := rfl
example : pyParseNat "10" = some 10 := rfl
example : pyParseNat "xx" = none := rfl
example : pyParseNat "" = none := rfl

/-- Holds when the six parallel record lists all have the same length. -/
def sameLens (t : TdiffLists) : Prop :=
  t.stimes.length = t.tbands.length ∧ t.etimes.length = t.tbands.length ∧
  t.est_tdiffs.length = t.tbands.length ∧ t.tdiff_errs.length = t.tbands.length ∧
  t.validated.length = t.tbands.length

/-- Two validated records for band 5: record 0 over [100, 200] and record 1
over [0, 20], stored in this (insertion) order. -/
def twoRecordSeries : TdiffLists :=
  { tbands := [5, 5], stimes := [100, 0], etimes := [200, 20],
    est_tdiffs := [some 1, some 2], tdiff_errs := [some 3, some 4],
    validated := [true, true] }

/-- Same two records, but the one actually covering the query window is not
validated. -/
def twoRecordSeriesUnval : TdiffLists :=
  { twoRecordSeries with validated := [true, false] }

/-- Claim C1: with `requireValidated = false`, when exactly one stored record
survives the band / start-time / end-time filters, `get_tdiff` is claimed to
return that record's `(estimate, error)`.  Evaluating the embedded code at
`twoRecordSeries`, band 5, time 15: the unique surviving record is record 1
with values `(2, 4)`, yet `get_tdiff` returns record 0's `(1, 3)` — record 0
does not even satisfy the time window.  The slip is rad_tdiff.py line 345,
which indexes `itbands` where the start-time-filtered `idiff` was meant. -/
theorem get_tdiff_returns_wrong_record_at_unique_match :
    specMatchingRecords twoRecordSeries 5 15 = [1] ∧
    twoRecordSeries.est_tdiffs.getD 1 none = some 2 ∧
    twoRecordSeries.tdiff_errs.getD 1 none = some 4 ∧
    get_tdiff twoRecordSeries 5 15 false = (some 1, some 3) ∧
    (some (1 : ℚ), some (3 : ℚ)) ≠ ((some 2 : PyFloat), (some 4 : PyFloat)) :=
  ⟨rfl, rfl, rfl, rfl, by decide⟩

/-- Claim C2: when the unique matching record has `validated = false`, the
claim says `requireValidated = true` yields `(NaN, NaN)` and
`requireValidated = false` yields that record's values.  Evaluating at
`twoRecordSeriesUnval`, band 5, time 15: the unique matching record is
record 1 (unvalidated, values `(2, 4)`), but the code consults record 0's
index both for the validation flag and for the values (the same line-345
slip), so `tval = true` returns `(1, 3)` instead of `(NaN, NaN)` and
`tval = false` returns `(1, 3)` instead of `(2, 4)`. -/
theorem get_tdiff_validation_checks_wrong_record :
    specMatchingRecords twoRecordSeriesUnval 5 15 = [1] ∧
    twoRecordSeriesUnval.validated.getD 1 true = false ∧
    get_tdiff twoRecordSeriesUnval 5 15 true = (some 1, some 3) ∧
    get_tdiff twoRecordSeriesUnval 5 15 false = (some 1, some 3) ∧
    ((some 1 : PyFloat), (some 3 : PyFloat)) ≠ (none, none) :=
  ⟨rfl, rfl, rfl, rfl, by decide⟩

/-- Column mapping with the band in column 0, tdiff in 1, error in 2,
validation flag in 3, start time in column 4 and end time in column 5. -/
def colsA : LoadCols :=
  { tdiff_col := 1, terr_col := 2, tband_col := 0, val_col := 3,
    stime_cols := [4], etime_cols := [5] }

/-- Column mapping like `colsA` but with a negative validation column and the
times in columns 3 and 4. -/
def colsNegVal : LoadCols :=
  { tdiff_col := 1, terr_col := 2, tband_col := 0, val_col := -1,
    stime_cols := [3], etime_cols := [4] }

/-- Appending one record keeps the six lists the same length. -/
lemma sameLens_hwAppendBand (stime : Nat) (hard : HdwSite) (acc : TdiffLists)
    (tt : Nat) (h : sameLens acc) : sameLens (hwAppendBand stime hard acc tt) := by
  rcases h with ⟨h1, h2, h3, h4, h5⟩
  simp only [hwAppendBand, sameLens, List.length_append, List.length_cons,
    List.length_nil]
  omega

/-- The per-band fold of the hardware path preserves equal lengths. -/
lemma sameLens_hwBandFold (stime : Nat) (hard : HdwSite) (tbands : List Nat)
    (acc : TdiffLists) (h : sameLens acc) :
    sameLens (tbands.foldl (hwAppendBand stime hard) acc) := by
  induction tbands generalizing acc with
  | nil => exact h
  | cons tt rest ih => exact ih _ (sameLens_hwAppendBand _ _ _ _ h)

/-- The per-site fold of the hardware path preserves equal lengths. -/
lemma sameLens_hwSites (tbands : List Nat) (sites : List HdwSite)
    (p : Nat × TdiffLists) (h : sameLens p.2) :
    sameLens ((sites.foldl (hwSiteStep tbands) p).2) := by
  induction sites generalizing p with
  | nil => exact h
  | cons hard rest ih =>
    exact ih _ (sameLens_hwBandFold p.1 hard tbands p.2 h)

/-- Claim C3: the six parallel lists are claimed to have equal lengths after
construction by either population strategy over any input.  The hardware
derivation does keep them equal (first conjunct, over every hardware history
and band list).  The file loader does not: on the single line
`"5 1 1 1 10 xx"` (whose end-time field does not parse) the load completes
without raising and counts the line as bad, but the start time has already
been appended inside the same `try` (rad_tdiff.py line 246), so `stimes` has
length 1 while the other five lists are empty. -/
theorem tdiff_parallel_lists_unequal_after_load :
    (∀ (stTime : Nat) (sites : List HdwSite) (tbands : List Nat),
       sameLens (load_hardware_tdiff stTime sites tbands)) ∧
    load_tdiff splitSpace pyParseNat pyParseInt pyParseFloat colsA
      ["5 1 1 1 10 xx"] = .ok ({ emptyTdiff with stimes := [10] }, 1) ∧
    ¬ sameLens { emptyTdiff with stimes := [10] } :=
  ⟨fun stTime sites tbands =>
     sameLens_hwSites tbands sites (stTime, emptyTdiff) ⟨rfl, rfl, rfl, rfl, rfl⟩,
   rfl, by simp [sameLens, emptyTdiff]⟩

/-- Counterexample to claim C5: the loader is claimed never to raise on any
file content, including non-numeric band/tdiff/error columns; but on the line
`"xx 1 1 1 10 20"` (band column `"xx"`), both time fields parse and then
`int(fdata[tband_col])` raises out of `load_tdiff` (rad_tdiff.py line 263 has
no enclosing try). -/
theorem load_tdiff_raises_on_nonnumeric_band :
    load_tdiff splitSpace pyParseNat pyParseInt pyParseFloat colsA
      ["xx 1 1 1 10 20"] = .error () := rfl

/-- Counterexample to claim C9: a negative `val_col` is claimed to abort the
load with no records appended, but `val_col` is missing from the `all_cols`
guard (rad_tdiff.py line 213), so with `val_col = -1` the load runs to
completion and appends a full record (the validation field being read by
Python negative indexing from the end of the line). -/
theorem load_tdiff_ignores_negative_val_col :
    load_tdiff splitSpace pyParseNat pyParseInt pyParseFloat colsNegVal
      ["5 1 2 10 20"] =
      .ok ({ tbands := [5], stimes := [10], etimes := [20],
             est_tdiffs := [some 1], tdiff_errs := [some 2],
             validated := [true] }, 0) ∧
    (({ tbands := [5], stimes := [10], etimes := [20],
        est_tdiffs := [some 1], tdiff_errs := [some 2],
        validated := [true] } : TdiffLists)).tbands.length = 1 :=
  ⟨rfl, rfl⟩

/-- Counterexample to claim C6: resolving an integer that is not a known
station id is claimed to complete without raising; but `radFreqBands.__init__`
reaches `rad.lower()` on the integer inside the id loop and raises
AttributeError (modelled `.error ()`). -/
theorem resolve_unknown_int_raises : resolveFB (.pyInt 17) = .error () := rfl

/-- Counterexample to claim C7: resolving a catalog code in upper case is
claimed to yield the lowercase catalog code; the code instead stores the
input string as given, so `"HAN"` resolves to `("HAN", 10)`, not
`("han", 10)`. -/
theorem resolve_uppercase_code_not_lowercased :
    resolveFB (.pyStr "HAN") = .ok (some "HAN", some 10) ∧
    ("HAN" : String) ≠ "han" :=
  ⟨rfl, by decide⟩

/-- Claim C4: over a radar's version list with pairwise non-overlapping
effective intervals, `get_time_key` returns the key of the version whose
`[effectiveStart, effectiveEnd)` window contains `t` whenever one does, and
the sentinel -1 whenever none does (before the earliest start, at or after
the latest end, or in a gap). -/
theorem get_time_key_unique_version_or_none
    (versions : List (Nat × Nat × Nat)) (t : Nat)
    (hdisj : versions.Pairwise (fun u v => u.2.2 ≤ v.2.1 ∨ v.2.2 ≤ u.2.1)) :
    (∀ v ∈ versions, v.2.1 ≤ t → t < v.2.2 →
       get_time_key versions t = (v.1 : Int)) ∧
    ((∀ v ∈ versions, ¬ (v.2.1 ≤ t ∧ t < v.2.2)) →
       get_time_key versions t = -1) := by
  induction versions with
  | nil =>
    exact ⟨fun v hv => absurd hv (List.not_mem_nil v), fun _ => rfl⟩
  | cons u vs ih =>
    rcases List.pairwise_cons.mp hdisj with ⟨hu, hvs⟩
    rcases ih hvs with ⟨ih1, ih2⟩
    by_cases hcu : u.2.1 ≤ t ∧ t < u.2.2
    · have hp : (decide (u.2.1 ≤ t) && decide (t < u.2.2)) = true := by
        simp [hcu.1, hcu.2]
      have hfind : get_time_key (u :: vs) t = (u.1 : Int) := by
        simp only [get_time_key, List.find?_cons, hp]
      constructor
      · intro v hv h1 h2
        rcases List.mem_cons.mp hv with rfl | hv
        · exact hfind
        · rcases hu v hv with h | h
          · exfalso; omega
          · exfalso; omega
      · intro hnone
        exact absurd hcu (hnone u (List.mem_cons_self u vs))
    · have hp : (decide (u.2.1 ≤ t) && decide (t < u.2.2)) = false := by
        rcases Decidable.not_and_iff_or_not.mp hcu with h | h <;> simp [h]
      have hstep : get_time_key (u :: vs) t = get_time_key vs t := by
        simp only [get_time_key, List.find?_cons, hp]
      constructor
      · intro v hv h1 h2
        rcases List.mem_cons.mp hv with rfl | hv
        · exact absurd ⟨h1, h2⟩ hcu
        · rw [hstep]; exact ih1 v hv h1 h2
      · intro hnone
        rw [hstep]
        exact ih2 (fun v hv => hnone v (List.mem_cons_of_mem u hv))

/-- The version list of radar kod, the catalog's radar with three versions
(and a coverage gap between versions 0 and 1). -/
def kodVersions : List (Nat × Nat × Nat) :=
  [(0, dtNat 1995 1 1 0 0 0, dtNat 2009 10 1 0 0 0),
   (1, dtNat 2010 8 30 0 0 0, dtNat 2010 9 6 23 59 59),
   (2, dtNat 2010 9 7 0 0 0, dtNat 3000 1 1 0 0 0)]

/-- Witness for claim C4 at radar kod's catalog versions: they are pairwise
non-overlapping, and a time inside version 1's window selects key 1. -/
theorem get_time_key_unique_version_or_none_witness :
    kodVersions.Pairwise (fun u v => u.2.2 ≤ v.2.1 ∨ v.2.2 ≤ u.2.1) ∧
    (1, dtNat 2010 8 30 0 0 0, dtNat 2010 9 6 23 59 59) ∈ kodVersions ∧
    get_time_key kodVersions (dtNat 2010 9 1 0 0 0) = 1 :=
  ⟨by decide, by decide,
   (get_time_key_unique_version_or_none kodVersions (dtNat 2010 9 1 0 0 0)
       (by decide)).1
     (1, dtNat 2010 8 30 0 0 0, dtNat 2010 9 6 23 59 59) (by decide)
     (by decide) (by decide)⟩

/-- Radar han's band lower bounds (`rad_min['han']`). -/
def hanMins : List Nat :=
  [8305, 8965, 9900, 11075, 11550, 12370, 13200, 15010, 16210, 16555, 17970,
   18850, 19415, 19705, 19800]

/-- Radar han's band upper bounds (`rad_max['han']`). -/
def hanMaxs : List Nat :=
  [8335, 9040, 9985, 11275, 11600, 12415, 13260, 15080, 16360, 16615, 18050,
   18865, 19680, 19755, 19990]

/-- Radar han's single catalog version. -/
def hanVersions : List (Nat × Nat × Nat) :=
  [(0, dtNat 1995 1 1 0 0 0, dtNat 3000 1 1 0 0 0)]

/-- The snapshot `radFreqBands('han', t)` carries for any `t` inside the
version window. -/
def hanFB : FreqBands :=
  { rad_code := some "han", stid := some 10,
    stime := dtNat 1995 1 1 0 0 0, etime := dtNat 3000 1 1 0 0 0,
    tbands := [0, 1, 2, 3, 4, 5, 6, 7, 8, 9, 10, 11, 12, 13, 14],
    tmins := hanMins, tmaxs := hanMaxs }

/-- Constructing `radFreqBands('han', t)` for any `t` in
`[1995-01-01, 3000-01-01)` yields exactly the `hanFB` snapshot. -/
theorem mkFreqBands_han (t : Nat) (h1 : dtNat 1995 1 1 0 0 0 ≤ t)
    (h2 : t < dtNat 3000 1 1 0 0 0) :
    mkFreqBands (.pyStr "han") t = .ok hanFB := by
  have hkey : get_time_key hanVersions t = 0 := by
    simp [get_time_key, hanVersions, List.find?_cons, h1, h2]
  have htry : tryBands "han" t = some (dtNat 1995 1 1 0 0 0,
      dtNat 3000 1 1 0 0 0, [0, 1, 2, 3, 4, 5, 6, 7, 8, 9, 10, 11, 12, 13, 14],
      hanMins, hanMaxs) := by
    show tryBandsWithKey "han" hanVersions (get_time_key hanVersions t) =
      some (dtNat 1995 1 1 0 0 0, dtNat 3000 1 1 0 0 0,
        [0, 1, 2, 3, 4, 5, 6, 7, 8, 9, 10, 11, 12, 13, 14], hanMins, hanMaxs)
    rw [hkey]
    rfl
  have h0 : mkFreqBands (.pyStr "han") t = (match tryBands "han" t with
    | some (s, e, nums, tmins, tmaxs) =>
      .ok { rad_code := some "han", stid := some 10, stime := s, etime := e,
            tbands := nums, tmins := tmins, tmaxs := tmaxs }
    | none =>
      .ok { rad_code := some "han", stid := some 10, stime := t, etime := t,
            tbands := [], tmins := [], tmaxs := [] }) := rfl
  rw [h0, htry]
  rfl

/-- Claim C10: for radar han (station id 10) at any time in
`[1995-01-01, 3000-01-01)`, the constructed snapshot has 15 bands spanning
8305 to 19990 kHz; querying frequency 13200 kHz returns the band bounds
`(13200, 13260)`, and querying 20000 kHz returns the sentinel `(-1, -1)`. -/
theorem han_concrete_scenario (t : Nat) (h1 : dtNat 1995 1 1 0 0 0 ≤ t)
    (h2 : t < dtNat 3000 1 1 0 0 0) :
    mkFreqBands (.pyStr "han") t = .ok hanFB ∧
    hanFB.stid = some 10 ∧
    hanFB.tbands.length = 15 ∧
    hanFB.tmins.min? = some 8305 ∧
    hanFB.tmaxs.max? = some 19990 ∧
    get_tband_max_min hanFB 13200 = .ok (13200, 13260) ∧
    get_tband_max_min hanFB 20000 = .ok (-1, -1) :=
  ⟨mkFreqBands_han t h1 h2, rfl, rfl, by decide, by decide, rfl, rfl⟩

/-- Witness for claim C10 at 2000-06-15. -/
theorem han_concrete_scenario_witness :
    dtNat 1995 1 1 0 0 0 ≤ dtNat 2000 6 15 0 0 0 ∧
    dtNat 2000 6 15 0 0 0 < dtNat 3000 1 1 0 0 0 ∧
    mkFreqBands (.pyStr "han") (dtNat 2000 6 15 0 0 0) = .ok hanFB ∧
    get_tband_max_min hanFB 13200 = .ok (13200, 13260) :=
  ⟨by decide, by decide,
   (han_concrete_scenario (dtNat 2000 6 15 0 0 0) (by decide) (by decide)).1,
   (han_concrete_scenario (dtNat 2000 6 15 0 0 0) (by decide) (by decide)).2.2.2.2.2.1⟩

/-- Counterexample to claim C8, in two parts.  First, a negative position is
claimed to return the sentinel -1, but numpy indexes it from the end of the
band list: on the han snapshot, position -1 yields the mean of the last band,
`(19800 + 19990) / 2 = 19895`.  Second, the claimed bound
`tmins[p] <= mean <= tmaxs[p]` fails on a real snapshot: pgr's version 2
(effective 2007-08-30 to 2007-10-01) lists band 66 at position 21 with
inverted bounds `min = 15400 > max = 11499`, and the computed mean 13449 lies
in neither direction of that empty interval. -/
theorem get_mean_tband_freq_counterexample :
    (mkFreqBands (.pyStr "han") (dtNat 2000 1 1 0 0 0)).map
      (fun fb => get_mean_tband_freq fb (-1)) = .ok (.ok 19895) ∧
    ((19895 : Int) ≠ -1) ∧
    (mkFreqBands (.pyStr "pgr") (dtNat 2007 9 15 0 0 0)).map
      (fun fb => (fb.tmins.getD 21 0, fb.tmaxs.getD 21 0,
                  get_mean_tband_freq fb 21)) =
      .ok (15400, 11499, .ok 13449) ∧
    ¬ (15400 ≤ 13449) :=
  ⟨rfl, by decide, rfl, by decide⟩

/-- Claim C8 as amended: for any snapshot, a position `p` with
`0 <= p < len` yields `floor((min[p] + max[p]) / 2)`, which lies within
`[min[p], max[p]]` whenever `min[p] <= max[p]` (the catalog violates that
premise at pgr version 2 position 21); a position `p >= len` yields the
sentinel -1; a negative in-range position indexes from the end of the lists
as numpy does; and a position below `-len` raises IndexError rather than
returning -1. -/
theorem get_mean_tband_freq_cases (fb : FreqBands) (p : Int) :
    (∀ mn mx, 0 ≤ p → fb.tmins.get? p.toNat = some mn →
       fb.tmaxs.get? p.toNat = some mx →
       get_mean_tband_freq fb p = .ok (((mx + mn) / 2 : Nat) : Int) ∧
       (mn ≤ mx → mn ≤ (mx + mn) / 2 ∧ (mx + mn) / 2 ≤ mx)) ∧
    ((fb.tmins.length : Int) ≤ p → get_mean_tband_freq fb p = .ok (-1)) ∧
    (∀ mn mx, p < 0 → -(fb.tmins.length : Int) ≤ p →
       -(fb.tmaxs.length : Int) ≤ p →
       fb.tmins.get? (fb.tmins.length - (-p).toNat) = some mn →
       fb.tmaxs.get? (fb.tmaxs.length - (-p).toNat) = some mx →
       get_mean_tband_freq fb p = .ok (((mx + mn) / 2 : Nat) : Int)) ∧
    (p < -(fb.tmins.length : Int) → get_mean_tband_freq fb p = .error ()) := by
  refine ⟨?_, ?_, ?_, ?_⟩
  · intro mn mx hp hmn hmx
    have hlt : p.toNat < fb.tmins.length := by
      rcases List.get?_eq_some.mp hmn with ⟨h, _⟩
      exact h
    have hguard : (fb.tmins.length : Int) > p := by omega
    constructor
    · rw [get_mean_tband_freq, if_pos hguard]
      rw [pyGet, if_pos hp, pyGet, if_pos hp, hmn, hmx]
    · intro hle
      omega
  · intro hge
    rw [get_mean_tband_freq, if_neg (by omega)]
  · intro mn mx hneg hge hge2 hmn hmx
    have e1 : pyGet fb.tmaxs p = some mx := by
      rw [pyGet, if_neg (by omega), if_pos hge2]; exact hmx
    have e2 : pyGet fb.tmins p = some mn := by
      rw [pyGet, if_neg (by omega), if_pos hge]; exact hmn
    rw [get_mean_tband_freq, if_pos (by omega), e1, e2]
  · intro hlt
    have hguard : (fb.tmins.length : Int) > p := by omega
    rw [get_mean_tband_freq, if_pos hguard]
    have hmn : pyGet fb.tmins p = none := by
      rw [pyGet, if_neg (by omega), if_neg (by omega)]
    rw [hmn]
    cases pyGet fb.tmaxs p <;> rfl

/-- Witness for claim C8 at the han snapshot, position 6: the mean is 13230
and it lies within `[13200, 13260]`. -/
theorem get_mean_tband_freq_cases_witness :
    hanFB.tmins.get? 6 = some 13200 ∧ hanFB.tmaxs.get? 6 = some 13260 ∧
    get_mean_tband_freq hanFB 6 = .ok 13230 ∧
    13200 ≤ 13230 ∧ 13230 ≤ 13260 :=
  have h := (get_mean_tband_freq_cases hanFB 6).1 13200 13260 (by decide)
    (by decide) (by decide)
  ⟨by decide, by decide, h.1, (h.2 (by decide)).1, (h.2 (by decide)).2⟩

/-- Claim C6 as amended: only *string* inputs degrade gracefully.  A
non-matching string resolves, without raising, to the input string as given
(not lowercased) and an absent station id; a `None` input resolves to
`(absent, absent)` in `radFreqBands.__init__` but raises in
`radTdiff.__init__`; and an integer that is no known station id raises
AttributeError in both (it reaches `rad.lower()` inside the id-search loop). -/
theorem resolve_unknown_degrades_only_for_strings (s : String)
    (hs : code_to_id (pyLower s) = none) :
    resolveFB (.pyStr s) = .ok (some s, none) ∧
    resolveTD (.pyStr s) = .ok (some s, none) ∧
    resolveFB .pyNone = .ok (none, none) ∧
    resolveTD .pyNone = .error () ∧
    ∀ n : Nat, lookupId n = none →
      resolveFB (.pyInt n) = .error () ∧ resolveTD (.pyInt n) = .error () := by
  refine ⟨?_, ?_, rfl, rfl, ?_⟩
  · show Except.ok (some s, code_to_id (pyLower s)) = _
    rw [hs]
  · show Except.ok (some s, code_to_id (pyLower s)) = _
    rw [hs]
  · intro n hn
    constructor
    · show (match lookupId n with
        | some c => Except.ok (some c, some n)
        | none => Except.error ()) = _
      rw [hn]
    · show (match lookupId n with
        | some c => Except.ok (some c, some n)
        | none => Except.error ()) = _
      rw [hn]

/-- Witness for claim C6 at the non-code string `"xyz"`, `None`, and the
unknown station id 17. -/
theorem resolve_unknown_degrades_only_for_strings_witness :
    code_to_id (pyLower "xyz") = none ∧
    resolveFB (.pyStr "xyz") = .ok (some "xyz", none) ∧
    resolveTD .pyNone = .error () ∧
    lookupId 17 = none ∧
    resolveFB (.pyInt 17) = .error () :=
  have h := resolve_unknown_degrades_only_for_strings "xyz" (by decide)
  ⟨by decide, h.1, h.2.2.2.1, by decide, (h.2.2.2.2 17 (by decide)).1⟩

/-- Claim C7 as amended: for every `(stationId, code)` catalog pair, resolving
the integer yields exactly `(code, stationId)`, and resolving any string that
lowercases to the code yields `(the input string as given, stationId)` —
which equals `(code, stationId)` exactly when the input is already
lowercase. -/
theorem resolve_identity_catalog :
    ∀ p ∈ id_to_code,
      resolveFB (.pyInt p.1) = .ok (some p.2, some p.1) ∧
      resolveTD (.pyInt p.1) = .ok (some p.2, some p.1) ∧
      ∀ s : String, pyLower s = p.2 →
        resolveFB (.pyStr s) = .ok (some s, some p.1) ∧
        resolveTD (.pyStr s) = .ok (some s, some p.1) := by
  intro p hp
  fin_cases hp <;>
    exact ⟨rfl, rfl, fun s hs =>
      ⟨by show Except.ok (some s, code_to_id (pyLower s)) = _; rw [hs]; rfl,
       by show Except.ok (some s, code_to_id (pyLower s)) = _; rw [hs]; rfl⟩⟩

/-- Witness for claim C7 at the catalog pair `(10, "han")` and the mixed-case
input `"HaN"`. -/
theorem resolve_identity_catalog_witness :
    (10, "han") ∈ id_to_code ∧
    pyLower "HaN" = "han" ∧
    resolveFB (.pyInt 10) = .ok (some "han", some 10) ∧
    resolveFB (.pyStr "HaN") = .ok (some "HaN", some 10) :=
  have h := resolve_identity_catalog (10, "han") (by decide)
  ⟨by decide, by decide, h.1, (h.2.2 "HaN" (by decide)).1⟩

/-- Claim C9 as amended: a negative index among the *checked* columns —
tdiff, error, band, start-time or end-time columns — makes the load return
before opening the file, with no records and a zero bad-line count.  The
validation column is not part of the check (see
`load_tdiff_ignores_negative_val_col`). -/
theorem load_tdiff_aborts_on_negative_checked_cols
    (split : String → List String) (parseTime : String → Option Nat)
    (parseInt : String → Option Int) (parseFloat : String → Option PyFloat)
    (cols : LoadCols) (content : List String)
    (hneg : loadMinCol cols < 0) :
    load_tdiff split parseTime parseInt parseFloat cols content =
      .ok (emptyTdiff, 0) := by
  unfold load_tdiff
  rw [if_pos hneg]

/-- Witness for claim C9 with band column -2. -/
theorem load_tdiff_aborts_on_negative_checked_cols_witness :
    loadMinCol { colsA with tband_col := -2 } < 0 ∧
    load_tdiff splitSpace pyParseNat pyParseInt pyParseFloat
      { colsA with tband_col := -2 } ["5 1 2 10 20"] = .ok (emptyTdiff, 0) :=
  ⟨by decide,
   load_tdiff_aborts_on_negative_checked_cols splitSpace pyParseNat pyParseInt
     pyParseFloat { colsA with tband_col := -2 } ["5 1 2 10 20"] (by decide)⟩

/-- Whether the designated time columns of a split line yield a parseable
time string (the spec's "time fields parse under the given format"); an
empty column list counts as failing, matching the IndexError the source
catches inside the same `try`. -/
def timeFieldsParse (parseTime : String → Option Nat) (fdata : List String) :
    List Int → Bool
  | [] => false
  | c0 :: crest => (parseTime (timeFieldStr fdata c0 crest)).isSome

/-- The spec's description of a dropped line (claims C3/C5): a non-comment
line with too few columns, or whose start- or end-time fields fail to parse
under the given format. -/
def specLineBad (split : String → List String)
    (parseTime : String → Option Nat) (cols : LoadCols) (max_col : Int)
    (fline : String) : Bool :=
  !(fline.data.contains '#') &&
  (decide (((split fline).length : Int) ≤ max_col) ||
   !(timeFieldsParse parseTime (split fline) cols.stime_cols) ||
   !(timeFieldsParse parseTime (split fline) cols.etime_cols))

/-- Whether the casts outside the `try` all succeed on a line: the band
column parses as an int, the tdiff and error columns parse as floats, and
the validation column index is in range. -/
def lineCastsOk (split : String → List String) (parseInt : String → Option Int)
    (parseFloat : String → Option PyFloat) (cols : LoadCols)
    (fline : String) : Bool :=
  (parseInt ((split fline).getD cols.tband_col.toNat emptyField)).isSome &&
  (parseFloat ((split fline).getD cols.tdiff_col.toNat emptyField)).isSome &&
  (parseFloat ((split fline).getD cols.terr_col.toNat emptyField)).isSome &&
  (pyGet (split fline) cols.val_col).isSome

/-- A line that is a comment, or bad in the spec's counted sense, or whose
casts succeed, is processed without raising, and it increments the bad-line
count exactly when it is bad. -/
lemma processTdiffLine_ok (split : String → List String)
    (parseTime : String → Option Nat) (parseInt : String → Option Int)
    (parseFloat : String → Option PyFloat) (cols : LoadCols) (max_col : Int)
    (t : TdiffLists) (bad : Nat) (fline : String)
    (h : fline.data.contains '#' = true ∨
      specLineBad split parseTime cols max_col fline = true ∨
      lineCastsOk split parseInt parseFloat cols fline = true) :
    ∃ t', processTdiffLine split parseTime parseInt parseFloat cols max_col
        (t, bad) fline =
      .ok (t', bad +
        (if specLineBad split parseTime cols max_col fline then 1 else 0)) := by
  by_cases hc : '#' ∈ fline.data
  · refine ⟨t, ?_⟩
    simp [processTdiffLine, specLineBad, hc]
  · by_cases hlen : ((split fline).length : Int) ≤ max_col
    · refine ⟨t, ?_⟩
      simp [processTdiffLine, specLineBad, hc, hlen]
    · rcases hsc : cols.stime_cols with _ | ⟨c0, crest⟩
      · refine ⟨t, ?_⟩
        simp [processTdiffLine, specLineBad, hc, hlen, hsc, timeFieldsParse]
      · rcases hst : parseTime (timeFieldStr (split fline) c0 crest) with _ | stv
        · refine ⟨t, ?_⟩
          simp [processTdiffLine, specLineBad, hc, hlen, hsc, hst,
            timeFieldsParse]
        · rcases hec : cols.etime_cols with _ | ⟨d0, drest⟩
          · refine ⟨{ t with stimes := t.stimes ++ [stv] }, ?_⟩
            simp [processTdiffLine, specLineBad, hc, hlen, hsc, hst, hec,
              timeFieldsParse]
          · rcases het : parseTime (timeFieldStr (split fline) d0 drest)
              with _ | etv
            · refine ⟨{ t with stimes := t.stimes ++ [stv] }, ?_⟩
              simp [processTdiffLine, specLineBad, hc, hlen, hsc, hst, hec,
                het, timeFieldsParse]
            · have hbad : specLineBad split parseTime cols max_col fline
                  = false := by
                simp [specLineBad, hc, hlen, hsc, hst, hec, het,
                  timeFieldsParse]
              have hcast : lineCastsOk split parseInt parseFloat cols fline
                  = true := by
                rcases h with h | h | h
                · exact absurd (by simpa using h) hc
                · rw [h] at hbad; exact absurd hbad (by simp)
                · exact h
              simp only [lineCastsOk, Bool.and_eq_true,
                Option.isSome_iff_exists] at hcast
              obtain ⟨⟨⟨⟨bv, hbv⟩, ⟨ev, hev⟩⟩, ⟨rv, hrv⟩⟩, ⟨vs, hvs⟩⟩ := hcast
              refine ⟨TdiffLists.mk (t.tbands ++ [bv]) (t.stimes ++ [stv])
                (t.etimes ++ [etv]) (t.est_tdiffs ++ [ev])
                (t.tdiff_errs ++ [rv]) (t.validated ++ [vs != emptyField]), ?_⟩
              rw [hbad]
              simp only [processTdiffLine, hlen, hsc, hst, hec, het, hbv, hev,
                hrv, hvs, if_neg hlen, Nat.add_zero]
              rw [if_neg (show ¬ (fline.data.contains '#' = true) by
                simpa using hc)]
              simp

/-- The line fold of `load_tdiff` never raises and adds exactly the number of
bad lines to the running count, provided every line is a comment, a counted
bad line, or a line whose casts succeed. -/
lemma foldProcess_ok (split : String → List String)
    (parseTime : String → Option Nat) (parseInt : String → Option Int)
    (parseFloat : String → Option PyFloat) (cols : LoadCols) (max_col : Int)
    (content : List String) :
    ∀ (t : TdiffLists) (bad : Nat),
    (∀ fline ∈ content, fline.data.contains '#' = true ∨
      specLineBad split parseTime cols max_col fline = true ∨
      lineCastsOk split parseInt parseFloat cols fline = true) →
    ∃ T, content.foldlM
        (processTdiffLine split parseTime parseInt parseFloat cols max_col)
        (t, bad) =
      .ok (T, bad + content.countP (specLineBad split parseTime cols max_col)) := by
  induction content with
  | nil =>
    intro t bad _
    exact ⟨t, by simp; rfl⟩
  | cons fline rest ih =>
    intro t bad hok
    obtain ⟨t', ht'⟩ := processTdiffLine_ok split parseTime parseInt parseFloat
      cols max_col t bad fline (hok fline (List.mem_cons_self _ _))
    obtain ⟨T, hT⟩ := ih t'
      (bad + (if specLineBad split parseTime cols max_col fline then 1 else 0))
      (fun l hl => hok l (List.mem_cons_of_mem _ hl))
    refine ⟨T, ?_⟩
    rw [List.foldlM_cons, ht']
    show rest.foldlM
        (processTdiffLine split parseTime parseInt parseFloat cols max_col)
        (t', bad + (if specLineBad split parseTime cols max_col fline
          then 1 else 0)) = _
    rw [hT]
    cases hsb : specLineBad split parseTime cols max_col fline <;>
      (simp [List.countP_cons, hsb]; try omega)

/-- Claim C5 as amended: with non-negative checked columns, every non-comment
line with too few columns or unparseable time fields is skipped and counted
(never fatal), and the bad-line count `load_tdiff` ends with — the count the
source logs once after the scan — is exactly the number of such lines;
the load does not raise provided every processed line's band, tdiff and
error columns parse and its validation column index is in range (a line
violating that raises out of the load, see
`load_tdiff_raises_on_nonnumeric_band`). -/
theorem load_tdiff_skips_and_counts (split : String → List String)
    (parseTime : String → Option Nat) (parseInt : String → Option Int)
    (parseFloat : String → Option PyFloat) (cols : LoadCols)
    (content : List String)
    (hpos : ¬ loadMinCol cols < 0)
    (hok : ∀ fline ∈ content, fline.data.contains '#' = true ∨
      specLineBad split parseTime cols (loadMaxCol cols) fline = true ∨
      lineCastsOk split parseInt parseFloat cols fline = true) :
    ∃ T : TdiffLists,
      load_tdiff split parseTime parseInt parseFloat cols content =
        .ok (T, content.countP
          (specLineBad split parseTime cols (loadMaxCol cols))) := by
  obtain ⟨T, hT⟩ := foldProcess_ok split parseTime parseInt parseFloat cols
    (loadMaxCol cols) content emptyTdiff 0 hok
  refine ⟨T, ?_⟩
  unfold load_tdiff
  rw [if_neg hpos]
  simpa using hT

/-- A calibration file with one comment line, two well-formed lines and two
malformed lines (one too short, one with an unparseable start time). -/
def skipCountLines : List String :=
  ["# header line", "5 1 1 1 10 20", "tooshort", "5 1 1 1 xx 20"]

/-- Witness for claim C5 on `skipCountLines`: the load completes with a
reported bad-line count of exactly 2. -/
theorem load_tdiff_skips_and_counts_witness :
    (¬ loadMinCol colsA < 0) ∧
    skipCountLines.countP
      (specLineBad splitSpace pyParseNat colsA (loadMaxCol colsA)) = 2 ∧
    ∃ T : TdiffLists,
      load_tdiff splitSpace pyParseNat pyParseInt pyParseFloat colsA
        skipCountLines = .ok (T, 2) := by
  refine ⟨by decide, by decide, ?_⟩
  obtain ⟨T, hT⟩ := load_tdiff_skips_and_counts splitSpace pyParseNat
    pyParseInt pyParseFloat colsA skipCountLines (by decide) (by decide)
  refine ⟨T, ?_⟩
  rw [hT]
  have hc2 : skipCountLines.countP
      (specLineBad splitSpace pyParseNat colsA (loadMaxCol colsA)) = 2 := by
    decide
  rw [hc2]
